import Mathlib

/-!
Verification of the example notebook `examples/projection/3_prediction.ipynb`
of the CSBDeep repository.

The notebook is orchestration code: it downloads sample data, reads a raw
low-SNR 3D stack `x` and a ground-truth 2D projection `y`, loads a pretrained
`ProjectionCARE` model from disk, applies `model.predict` (once without and
once with explicit tiling parameters), saves the restored image as an
ImageJ-compatible TIFF, and plots figures.

The embedding below models one run of the notebook as a pure state-passing
program over:
  * a heap of numpy arrays (allocated cells; numpy operations used by the
    notebook, `np.stack` and `np.broadcast_to`, allocate fresh arrays and
    never write into their arguments, as does `imread`);
  * a filesystem modelled as the list of existing paths;
  * a trace of the effectful steps the notebook performs, in order.

The external CSBDeep library (the `ProjectionCARE` constructor and the
`predict` method) is not part of the sources under verification; it is
modelled abstractly by an environment `Env`, with the pieces the claims need
modelled from the spec where noted.
-/

/-- A numpy array, abstracted to its shape and an opaque content tag.
Two arrays are the same array value iff shape and content agree. -/
structure Img where
  shape : List Nat
  data : Nat
deriving DecidableEq, Repr

/-- `np.broadcast_to(im, shape)`: a read-only view of `im` with the given
shape; the pixel content is that of `im`, replicated (content tag kept).
It does not modify `im`. Shape compatibility is assumed, as in the notebook. -/
def np_broadcast_to (im : Img) (shape : List Nat) : Img :=
  { shape := shape, data := im.data }

/-- `np.stack(l)`: a fresh array with one more leading axis of length
`l.length`; the content tag combines the content tags of the inputs.
It does not modify its arguments. -/
def np_stack (l : List Img) : Img :=
  { shape := l.length :: (l.head?.elim [] Img.shape)
    data := (l.map Img.data).foldr Nat.pair 0 }

/-- Allocate a fresh heap cell holding `im`; returns its reference. -/
def alloc (im : Img) (h : List Img) : Nat × List Img :=
  (h.length, h ++ [im])

/-- Abstract model configuration (contents irrelevant to the claims). -/
structure Config where
  tag : Nat
deriving DecidableEq, Repr

/-- What is stored on disk for the trained model `models/my_model`:
its saved configuration, its projection parameters (the projection axis
`proj_params.axis`, a one-character string), and its learned prediction
function (weights plus the library inference code, abstracted as a pure
function of the input image, the axes string, and the optional `n_tiles`). -/
structure DiskModel where
  config : Config
  projAxis : String
  predictFn : Img → String → Option (Nat × Nat × Nat) → Img

/-- The external world the notebook runs against: the images on disk that
`imread` returns for each path, and the trained model stored on disk. -/
structure Env where
  imread : String → Img
  disk : DiskModel

/-- A loaded `ProjectionCARE` model object. -/
structure ProjModel where
  config : Config
  name : String
  basedir : String
  projAxis : String
  predictFn : Img → String → Option (Nat × Nat × Nat) → Img

/-- Modelled from the spec: the `ProjectionCARE(config, name, basedir)`
constructor of the external CSBDeep library. Per the notebook text, "The
configuration was saved during training and is automatically loaded when
`ProjectionCARE` is initialized with `config=None`": with `config = none`
the configuration, the projection parameters and the prediction function
(weights) all come from the saved model on disk; the `name` and `basedir`
attributes are the arguments passed. -/
def ProjectionCARE (config : Option Config) (name basedir : String)
    (disk : DiskModel) : ProjModel :=
  { config := config.getD disk.config
    name := name
    basedir := basedir
    projAxis := disk.projAxis
    predictFn := disk.predictFn }

/-- Does `p` occur at the head of `s`? -/
def leadsWith : List Char → List Char → Bool
  | [], _ => true
  | _ :: _, [] => false
  | p :: ps, c :: cs => p == c && leadsWith ps cs

/-- Fuel-driven worker for `strReplace`; the fuel bounds the number of
characters consumed, so `s.length` fuel always suffices. -/
def strReplaceAux (pat rep : List Char) : Nat → List Char → List Char
  | _, [] => []
  | 0, s => s
  | f + 1, c :: cs =>
    if pat ≠ [] ∧ leadsWith pat (c :: cs) then
      rep ++ strReplaceAux pat rep f ((c :: cs).drop pat.length)
    else
      c :: strReplaceAux pat rep f cs

/-- Python `s.replace(pat, rep)`: replace every non-overlapping occurrence
of the non-empty pattern `pat` in `s` by `rep`, scanning left to right.
(For an empty pattern the string is returned unchanged; the notebook only
ever uses a one-character pattern.) -/
def strReplace (s pat rep : String) : String :=
  String.mk (strReplaceAux pat.data rep.data s.data.length s.data)

/-- `Path(dir).mkdir(exist_ok=...)` of Python pathlib on a filesystem given
as the list of existing paths: if the directory already exists, succeed
exactly when `exist_ok` is true (otherwise raise `FileExistsError`);
if it does not exist, create it. -/
def pathMkdir (dir : String) (exist_ok : Bool) (fs : List String) :
    Except String (List String) :=
  if fs.contains dir then
    if exist_ok then Except.ok fs else Except.error "FileExistsError"
  else
    Except.ok (dir :: fs)

/-- The filesystem after `pathMkdir dir true fs` (which never fails). -/
def pathMkdirD (dir : String) (fs : List String) : List String :=
  if fs.contains dir then fs else dir :: fs

/-- One effectful step performed by the notebook, in program order. -/
inductive Step where
  | download (url targetdir : String)
  | imreadS (path : String)
  | plotSomeS (imgs : List Img)
  | loadModelS (configNone : Bool) (name basedir : String)
  | predictS (n_tiles : Option (Nat × Nat × Nat))
  | mkdirS (dir : String) (exist_ok : Bool)
  | saveTiffS (path : String) (img : Img) (axes : String)
deriving DecidableEq, Repr

/-- The URL of the sample data archive downloaded by the notebook. -/
def zipUrl : String := "http://csbdeep.bioimagecomputing.com/example_data/flywing.zip"

/-- Path of the ground-truth high-SNR 2D projection read by the notebook. -/
def gtPath : String := "data/flywing/GT/session_7_P17.tif"

/-- Path of the raw low-SNR 3D stack read by the notebook. -/
def lowPath : String := "data/flywing/low_C3/session_7_P17.tif"

/-- The observable outcome of one run of the notebook. -/
structure Run where
  steps : List Step
  heap : List Img
  xRef : Nat
  yRef : Nat
  x : Img
  y : Img
  model : ProjModel
  restored1 : Img
  restored : Img
  axes_restored : String
  savedPath : String
  savedImg : Img
  plotArgs2 : List Img
  fs : List String

/-- The notebook `examples/projection/3_prediction.ipynb`, cell by cell,
run against the environment `env` with initial filesystem `fs0`.
The local variable `restored` is bound twice in the source; the embedding
names the first binding `restored1` and the final one `restored`. -/
def notebookRun (env : Env) (fs0 : List String) : Except String Run := do
  -- download_and_extract_zip_file(url=zipUrl, targetdir='data')
  let s1 : List Step := [Step.download zipUrl "data"]
  -- y = imread('data/flywing/GT/session_7_P17.tif')
  -- x = imread('data/flywing/low_C3/session_7_P17.tif')
  -- axes = 'ZYX'
  let y := env.imread gtPath
  let x := env.imread lowPath
  let yh := alloc y []
  let xh := alloc x yh.2
  let axes := "ZYX"
  -- plot_some(np.stack([x, np.broadcast_to(y, x.shape)]), ...)
  let bY := np_broadcast_to y x.shape
  let bYh := alloc bY xh.2
  let plot1 := [x, bY]
  let st1h := alloc (np_stack plot1) bYh.2
  let s2 := s1 ++ [Step.imreadS gtPath, Step.imreadS lowPath, Step.plotSomeS plot1]
  -- model = ProjectionCARE(config=None, name='my_model', basedir='models')
  let model := ProjectionCARE none "my_model" "models" env.disk
  let s3 := s2 ++ [Step.loadModelS true "my_model" "models"]
  -- restored = model.predict(x, axes)
  let restored1 := model.predictFn x axes none
  let r1h := alloc restored1 st1h.2
  -- restored = model.predict(x, axes, n_tiles=(1,4,4))
  let restored := model.predictFn x axes (some (1, 4, 4))
  let rh := alloc restored r1h.2
  let s4 := s3 ++ [Step.predictS none, Step.predictS (some (1, 4, 4))]
  -- Path('results').mkdir(exist_ok=True)
  let fs1 ← pathMkdir "results" true fs0
  -- axes_restored = axes.replace(model.proj_params.axis, '')
  let axes_restored := strReplace axes model.projAxis ""
  -- save_tiff_imagej_compatible('results/%s_denoising+projection_example.tif' % model.name, restored, axes_restored)
  let savedPath := "results/" ++ model.name ++ "_denoising+projection_example.tif"
  let fs2 := savedPath :: fs1
  let s5 := s4 ++ [Step.mkdirS "results" true,
                   Step.saveTiffS savedPath restored axes_restored]
  -- plot_some(np.stack([x, np.broadcast_to(restored, x.shape), np.broadcast_to(y, x.shape)]), ...)
  let bR := np_broadcast_to restored x.shape
  let bRh := alloc bR rh.2
  let bY2 := np_broadcast_to y x.shape
  let bY2h := alloc bY2 bRh.2
  let plot2 := [x, bR, bY2]
  let st2h := alloc (np_stack plot2) bY2h.2
  let s6 := s5 ++ [Step.plotSomeS plot2]
  return { steps := s6
           heap := st2h.2
           xRef := xh.1
           yRef := yh.1
           x := x
           y := y
           model := model
           restored1 := restored1
           restored := restored
           axes_restored := axes_restored
           savedPath := savedPath
           savedImg := restored
           plotArgs2 := plot2
           fs := fs2 }

/-- The outcome of the (always successful) notebook run, in closed form. -/
def runSpec (env : Env) (fs0 : List String) : Run :=
  let y := env.imread gtPath
  let x := env.imread lowPath
  let yh := alloc y []
  let xh := alloc x yh.2
  let axes := "ZYX"
  let bY := np_broadcast_to y x.shape
  let bYh := alloc bY xh.2
  let plot1 := [x, bY]
  let st1h := alloc (np_stack plot1) bYh.2
  let model := ProjectionCARE none "my_model" "models" env.disk
  let restored1 := model.predictFn x axes none
  let r1h := alloc restored1 st1h.2
  let restored := model.predictFn x axes (some (1, 4, 4))
  let rh := alloc restored r1h.2
  let fs1 := pathMkdirD "results" fs0
  let axes_restored := strReplace axes model.projAxis ""
  let savedPath := "results/" ++ model.name ++ "_denoising+projection_example.tif"
  let fs2 := savedPath :: fs1
  let bR := np_broadcast_to restored x.shape
  let bRh := alloc bR rh.2
  let bY2 := np_broadcast_to y x.shape
  let bY2h := alloc bY2 bRh.2
  let plot2 := [x, bR, bY2]
  let st2h := alloc (np_stack plot2) bY2h.2
  { steps := [Step.download zipUrl "data", Step.imreadS gtPath,
              Step.imreadS lowPath, Step.plotSomeS plot1,
              Step.loadModelS true "my_model" "models",
              Step.predictS none, Step.predictS (some (1, 4, 4)),
              Step.mkdirS "results" true,
              Step.saveTiffS savedPath restored axes_restored,
              Step.plotSomeS plot2]
    heap := st2h.2
    xRef := xh.1
    yRef := yh.1
    x := x
    y := y
    model := model
    restored1 := restored1
    restored := restored
    axes_restored := axes_restored
    savedPath := savedPath
    savedImg := restored
    plotArgs2 := plot2
    fs := fs2 }

/-- `pathMkdir` with `exist_ok = true` never fails. -/
theorem pathMkdir_exist_ok (dir : String) (fs : List String) :
    pathMkdir dir true fs = Except.ok (pathMkdirD dir fs) := by
  unfold pathMkdir pathMkdirD
  split <;> rfl

/-- The run of the notebook always succeeds and produces `runSpec`. -/
theorem notebookRun_eq (env : Env) (fs0 : List String) :
    notebookRun env fs0 = Except.ok (runSpec env fs0) := by
  unfold notebookRun runSpec
  simp [pathMkdir_exist_ok, bind, Except.bind]
  rfl

/-- The restoration step as the spec words it: it is exactly the external
library predict function applied to the raw stack, the axes string, and the
tiling parameters — with no notebook-side tiling, retry, or post-processing. -/
def specRestoration (env : Env) (n_tiles : Option (Nat × Nat × Nat)) : Img :=
  (ProjectionCARE none "my_model" "models" env.disk).predictFn
    (env.imread lowPath) "ZYX" n_tiles

/-- C1: every run of the notebook performs its steps in order: download and
extract the sample data into directory `data`, then load the pretrained
model from disk, then invoke predict with tiling parameters on the raw
stack, and finally save the result to a TIFF file and plot it; the full
step trace pins the order, so no step precedes its listed predecessor. -/
theorem C1_step_order (env : Env) (fs0 : List String) :
    ∃ r, notebookRun env fs0 = Except.ok r ∧
      r.steps = [Step.download zipUrl "data", Step.imreadS gtPath,
                 Step.imreadS lowPath,
                 Step.plotSomeS [r.x, np_broadcast_to r.y r.x.shape],
                 Step.loadModelS true "my_model" "models",
                 Step.predictS none, Step.predictS (some (1, 4, 4)),
                 Step.mkdirS "results" true,
                 Step.saveTiffS r.savedPath r.savedImg r.axes_restored,
                 Step.plotSomeS r.plotArgs2] ∧
      r.steps.get? 0 = some (Step.download zipUrl "data") ∧
      r.steps.get? 4 = some (Step.loadModelS true "my_model" "models") ∧
      r.steps.get? 6 = some (Step.predictS (some (1, 4, 4))) ∧
      r.steps.get? 8 = some (Step.saveTiffS r.savedPath r.savedImg r.axes_restored) ∧
      r.steps.get? 9 = some (Step.plotSomeS r.plotArgs2) :=
  ⟨runSpec env fs0, notebookRun_eq env fs0, rfl, rfl, rfl, rfl, rfl, rfl⟩

/-- C2: when the pretrained model projects along axis `Z` and predict
produces a 2D surface projection from the 3D input stack (both modelled
from the spec), the saved axes string is the input axes `ZYX` with the
projection axis removed, namely `YX`, and the image written to disk has
exactly one axis fewer than the input. -/
theorem C2_projection_axes (env : Env) (fs0 : List String)
    (hax : env.disk.projAxis = "Z")
    (hx : (env.imread lowPath).shape.length = 3)
    (hp : ∀ i t, (env.disk.predictFn i "ZYX" t).shape.length = 2) :
    ∃ r, notebookRun env fs0 = Except.ok r ∧
      r.x.shape.length = 3 ∧
      r.axes_restored = strReplace "ZYX" env.disk.projAxis "" ∧
      r.axes_restored = "YX" ∧
      r.axes_restored.length + 1 = ("ZYX" : String).length ∧
      r.savedImg.shape.length = 2 ∧
      r.savedImg.shape.length + 1 = r.x.shape.length := by
  refine ⟨runSpec env fs0, notebookRun_eq env fs0, hx, rfl, ?_, ?_, ?_, ?_⟩
  · show strReplace "ZYX" env.disk.projAxis "" = "YX"
    rw [hax]
    decide
  · show (strReplace "ZYX" env.disk.projAxis "").length + 1 = _
    rw [hax]
    decide
  · exact hp _ _
  · show (env.disk.predictFn _ "ZYX" _).shape.length + 1 = (env.imread lowPath).shape.length
    rw [hp, hx]

/-- Concrete environment used to instantiate theorems with hypotheses:
the raw stack is 3D, the trained model projects along `Z` and always
returns a 2D image. -/
def envW : Env :=
  { imread := fun p =>
      if p = lowPath then { shape := [16, 128, 128], data := 0 }
      else { shape := [128, 128], data := 1 }
    disk :=
      { config := { tag := 0 }
        projAxis := "Z"
        predictFn := fun _ _ _ => { shape := [128, 128], data := 2 } } }

/-- Witness for C2 at the concrete environment `envW`. -/
theorem C2_projection_axes_witness :
    ∃ r, notebookRun envW [] = Except.ok r ∧
      r.x.shape.length = 3 ∧
      r.axes_restored = strReplace "ZYX" envW.disk.projAxis "" ∧
      r.axes_restored = "YX" ∧
      r.axes_restored.length + 1 = ("ZYX" : String).length ∧
      r.savedImg.shape.length = 2 ∧
      r.savedImg.shape.length + 1 = r.x.shape.length :=
  C2_projection_axes envW [] rfl (by decide) (fun _ _ => rfl)

/-- C3: the notebook restoration step is exactly a call into the external
framework: for every environment (hence every possible library predict
function), the first invocation equals predict on the raw stack and axes,
the second equals predict with `n_tiles = (1,4,4)`, and the saved value is
the bare predict result — the notebook adds no tiling, retry, or
post-processing of its own. -/
theorem C3_predict_delegation (env : Env) (fs0 : List String) :
    ∃ r, notebookRun env fs0 = Except.ok r ∧
      r.restored1 = specRestoration env none ∧
      r.restored = specRestoration env (some (1, 4, 4)) ∧
      r.restored = env.disk.predictFn (env.imread lowPath) "ZYX" (some (1, 4, 4)) ∧
      r.savedImg = r.restored :=
  ⟨runSpec env fs0, notebookRun_eq env fs0, rfl, rfl, rfl, rfl⟩

/-- Concrete environment on which the second figure demonstrably does not
receive the predict result itself: the raw stack is 3D with shape
`[1, 2, 2]` and predict returns a 2D image of shape `[2, 2]`. -/
def envC : Env :=
  { imread := fun p =>
      if p = lowPath then { shape := [1, 2, 2], data := 0 }
      else { shape := [2, 2], data := 1 }
    disk :=
      { config := { tag := 0 }
        projAxis := "Z"
        predictFn := fun _ _ _ => { shape := [2, 2], data := 5 } } }

/-- C4 counterexample: at the concrete environment `envC`, the image saved
to the TIFF file is exactly the second predict result, but the middle image
handed to the final plot is `np.broadcast_to(restored, x.shape)` — an array
of the 3D input shape — and therefore not the predict result passed through
unmodified. -/
theorem C4_plot_not_unmodified :
    ∃ r, notebookRun envC [] = Except.ok r ∧
      r.savedImg = r.restored ∧
      r.plotArgs2.get? 1 = some (np_broadcast_to r.restored r.x.shape) ∧
      r.plotArgs2.get? 1 ≠ some r.restored :=
  ⟨runSpec envC [], notebookRun_eq envC [], by decide, by decide, by decide⟩

/-- C4 amended: the image saved to the TIFF file is exactly the value of the
second predict call with `n_tiles = (1,4,4)` (whose assignment to `restored`
overwrites the first call result), passed through unmodified; the final
figure is instead handed `np.broadcast_to(restored, x.shape)` — the same
pixel content replicated to the 3D input shape — not `restored` itself. -/
theorem C4_saved_is_tiled_predict (env : Env) (fs0 : List String) :
    ∃ r, notebookRun env fs0 = Except.ok r ∧
      r.savedImg = r.restored ∧
      r.restored = r.model.predictFn r.x "ZYX" (some (1, 4, 4)) ∧
      r.restored1 = r.model.predictFn r.x "ZYX" none ∧
      r.plotArgs2 = [r.x, np_broadcast_to r.restored r.x.shape,
                     np_broadcast_to r.y r.x.shape] ∧
      (np_broadcast_to r.restored r.x.shape).data = r.restored.data :=
  ⟨runSpec env fs0, notebookRun_eq env fs0, rfl, rfl, rfl, rfl, rfl⟩

/-- C5: the model used for prediction is obtained by loading the pretrained
model from disk — `ProjectionCARE` with `config = none`, name `my_model`,
base directory `models` — so its configuration, projection parameters, and
prediction function all come from the saved training output on disk, not
from a fresh configuration built in the notebook. -/
theorem C5_model_loaded_from_disk (env : Env) (fs0 : List String) :
    ∃ r, notebookRun env fs0 = Except.ok r ∧
      r.model = ProjectionCARE none "my_model" "models" env.disk ∧
      r.model.name = "my_model" ∧
      r.model.basedir = "models" ∧
      r.model.config = env.disk.config ∧
      r.model.projAxis = env.disk.projAxis ∧
      r.model.predictFn = env.disk.predictFn :=
  ⟨runSpec env fs0, notebookRun_eq env fs0, rfl, rfl, rfl, rfl, rfl, rfl⟩

/-- C6: the restored image is written to the path obtained by formatting the
model name into `results/%s_denoising+projection_example.tif`; with the
model loaded under the name `my_model` this is
`results/my_model_denoising+projection_example.tif`, and after the run that
path exists on the filesystem. -/
theorem C6_output_path (env : Env) (fs0 : List String) :
    ∃ r, notebookRun env fs0 = Except.ok r ∧
      r.savedPath = "results/" ++ r.model.name ++ "_denoising+projection_example.tif" ∧
      r.savedPath = "results/my_model_denoising+projection_example.tif" ∧
      r.steps.get? 8 = some (Step.saveTiffS
        "results/my_model_denoising+projection_example.tif" r.savedImg r.axes_restored) ∧
      r.savedPath ∈ r.fs :=
  ⟨runSpec env fs0, notebookRun_eq env fs0, rfl, rfl, rfl,
    List.mem_cons_self _ _⟩

/-- C7: the save step creates the `results` directory with `exist_ok=True`,
so `pathMkdir` succeeds whether or not `results` already exists, and the
whole run succeeds for every initial filesystem — in particular also when
`results` was created by an earlier run. -/
theorem C7_mkdir_exist_ok (env : Env) (fs0 : List String) :
    (∀ fs, pathMkdir "results" true fs = Except.ok (pathMkdirD "results" fs)) ∧
    (∃ r, notebookRun env fs0 = Except.ok r ∧
      r.steps.get? 7 = some (Step.mkdirS "results" true) ∧
      Step.mkdirS "results" true ∈ r.steps) ∧
    (∃ r, notebookRun env ("results" :: fs0) = Except.ok r) :=
  ⟨fun fs => pathMkdir_exist_ok "results" fs,
   ⟨runSpec env fs0, notebookRun_eq env fs0, rfl,
    List.get?_mem (show (runSpec env fs0).steps.get? 7 =
      some (Step.mkdirS "results" true) from rfl)⟩,
   ⟨runSpec env ("results" :: fs0), notebookRun_eq env ("results" :: fs0)⟩⟩

/-- C8: the raw low-SNR stack `x` and the ground-truth image `y` are never
mutated after being loaded: prediction, plotting (which builds fresh arrays
with `np.stack` and `np.broadcast_to`) and saving leave the heap cells of
`x` and `y` holding exactly the values `imread` returned, and the variables
still denote those values at the end of every run. -/
theorem C8_inputs_unchanged (env : Env) (fs0 : List String) :
    ∃ r, notebookRun env fs0 = Except.ok r ∧
      r.x = env.imread lowPath ∧
      r.y = env.imread gtPath ∧
      r.heap.get? r.xRef = some (env.imread lowPath) ∧
      r.heap.get? r.yRef = some (env.imread gtPath) :=
  ⟨runSpec env fs0, notebookRun_eq env fs0, rfl, rfl, rfl, rfl⟩
